import Mathlib

/-!
Verification development for the youtube-transcript-scraper repository.

The file embeds the pure logic of `src/youtube_transcript_scraper.py` as Lean
definitions: the URL parser (`extract_video_id`), the subtitle resolver and
transcript decoder inside `get_transcript`, the formatter (`format_transcript`),
the retry-session policy (`create_retry_session`), and the response
normalisation of `extract_items_from_transcript`.  Network effects and the
external metadata extractor are modelled as explicit inputs (an outcome value
for the metadata call and a function from URL to fetch outcome).  Python floats
produced by `x / 1000.0` are modelled as exact rationals; Python `str.strip`
is modelled over the ASCII whitespace characters it strips.
-/

namespace YTScraper

/-! ## URL parser (`extract_video_id`, lines 28-48)

The two regular expressions are embedded directly: `re.search` scans start
positions left to right; at each position the alternatives of the first
pattern are tried in order, and the capture group `([^&\n?#]+)` takes the
maximal non-empty run of characters outside the excluded class.  The fallback
pattern `youtube\.com/watch\?.*v=([^&\n?#]+)` has a greedy `.*` that cannot
cross a newline, so it selects the rightmost `v=` candidate reachable from
the first viable occurrence of `youtube.com/watch?`. -/

/-- Characters allowed in a captured video id: the regex class `[^&\n?#]`. -/
def validChar (c : Char) : Bool :=
  decide (c ≠ '&' ∧ c ≠ '\n' ∧ c ≠ '?' ∧ c ≠ '#')

/-- Try one alternative of the first pattern at the current position: the
literal must match here and the capture group must be non-empty. -/
def tryLit (lit s : List Char) : Option (List Char) :=
  if lit.isPrefixOf s then
    if (s.drop lit.length).takeWhile validChar = [] then none
    else some ((s.drop lit.length).takeWhile validChar)
  else none

def watchLit : List Char := "youtube.com/watch?v=".data

def shortLit : List Char := "youtu.be/".data

def embedLit : List Char := "youtube.com/embed/".data

/-- Leftmost match of pattern
`(?:youtube\.com/watch\?v=|youtu\.be/|youtube\.com/embed/)([^&\n?#]+)`. -/
def searchPattern1 : List Char → Option (List Char)
  | [] => none
  | c :: cs =>
    match tryLit watchLit (c :: cs) with
    | some cap => some cap
    | none =>
      match tryLit shortLit (c :: cs) with
      | some cap => some cap
      | none =>
        match tryLit embedLit (c :: cs) with
        | some cap => some cap
        | none => searchPattern1 cs

/-- A `v=` candidate starting exactly here, with a non-empty capture. -/
def capAt : List Char → Option (List Char)
  | a :: b :: rest =>
    if a = 'v' ∧ b = '=' then
      if rest.takeWhile validChar = [] then none
      else some (rest.takeWhile validChar)
    else none
  | _ => none

/-- Rightmost `v=` candidate reachable by the greedy `.*` (which cannot
consume a newline). -/
def lastVMatch : List Char → Option (List Char)
  | [] => none
  | c :: cs =>
    match (if c = '\n' then none else lastVMatch cs) with
    | some cap => some cap
    | none => capAt (c :: cs)

def watchAnyLit : List Char := "youtube.com/watch?".data

/-- Leftmost match of the fallback pattern
`youtube\.com/watch\?.*v=([^&\n?#]+)`. -/
def searchPattern2 : List Char → Option (List Char)
  | [] => none
  | c :: cs =>
    match
      (if watchAnyLit.isPrefixOf (c :: cs) then
        lastVMatch ((c :: cs).drop watchAnyLit.length)
      else none) with
    | some cap => some cap
    | none => searchPattern2 cs

/-- `extract_video_id`: the patterns are tried in order and the first match
wins; `None` when neither matches. -/
def extract_video_id (url : String) : Option String :=
  match searchPattern1 url.data with
  | some cap => some (String.mk cap)
  | none =>
    match searchPattern2 url.data with
    | some cap => some (String.mk cap)
    | none => none

/-! ## Subtitle payload and transcript decoder (lines 148-171) -/

/-- One entry of an event's `segs` array; the `utf8` key may be missing. -/
structure Seg where
  utf8 : Option String
deriving DecidableEq

/-- One entry of the payload's `events` array; every key may be missing. -/
structure SubEvent where
  tStartMs : Option Int
  dDurationMs : Option Int
  segs : Option (List Seg)
deriving DecidableEq

/-- The parsed subtitle JSON payload; the `events` key may be missing. -/
structure SubtitlePayload where
  events : Option (List SubEvent)
deriving DecidableEq

/-- A decoded transcript entry (dict with keys `text`, `start`, `duration`). -/
structure TranscriptSegment where
  text : String
  start : ℚ
  duration : ℚ
deriving DecidableEq

/-- ASCII whitespace stripped by Python `str.strip()`. -/
def pySpace (c : Char) : Bool :=
  c == ' ' || c == '\t' || c == '\n' || c == '\r' || c == '\x0b' || c == '\x0c'

/-- Python `str.strip()` (over its ASCII whitespace set). -/
def pyStrip (s : String) : String :=
  String.mk (((s.data.dropWhile pySpace).reverse.dropWhile pySpace).reverse)

/-- `''.join([seg.get('utf8', '') for seg in event['segs']])`. -/
def concatUtf8 (segs : List Seg) : String :=
  String.join (segs.map fun sg => sg.utf8.getD "")

/-- `event.get('tStartMs', 0) / 1000.0`, as an exact rational. -/
def eventStart (event : SubEvent) : ℚ :=
  (event.tStartMs.getD 0 : ℚ) / 1000

/-- `event.get('dDurationMs', 0) / 1000.0`, as an exact rational. -/
def eventDuration (event : SubEvent) : ℚ :=
  (event.dDurationMs.getD 0 : ℚ) / 1000

/-- The body of the `for event in subtitle_data['events']` loop: skip events
without `segs`, join the `utf8` texts, and append a segment when the stripped
text is truthy. -/
def decodeStep (transcript : List TranscriptSegment) (event : SubEvent) :
    List TranscriptSegment :=
  match event.segs with
  | none => transcript
  | some sgs =>
    if pyStrip (concatUtf8 sgs) ≠ "" then
      transcript ++ [⟨pyStrip (concatUtf8 sgs), eventStart event, eventDuration event⟩]
    else transcript

/-- The `for event in subtitle_data['events']` loop accumulating into
`transcript`. -/
def decodeLoop (events : List SubEvent) : List TranscriptSegment :=
  events.foldl decodeStep []

/-- Lines 149-159: `transcript = []`, guarded by `'events' in subtitle_data`. -/
def decodeEvents (subtitle_data : SubtitlePayload) : List TranscriptSegment :=
  match subtitle_data.events with
  | some evs => decodeLoop evs
  | none => []

/-! ## Result type and fetch-error classification (lines 101-171) -/

/-- The dict returned by `get_transcript`: either
`(success := True, transcript, message)` or `(success := False, error)`. -/
inductive TranscriptResult where
  | success (transcript : List TranscriptSegment) (message : String)
  | failure (error : String)
deriving DecidableEq

/-- The exception raised by the subtitle fetch, by the `except` clause of
`get_transcript` that handles it. -/
inductive FetchError where
  | timeout
  | connectionError
  | httpError (code : Nat)
  | requestError (msg : String)
  | jsonDecodeError
deriving DecidableEq

/-- Outcome of the subtitle-JSON fetch: a parsed payload or an exception. -/
inductive FetchOutcome where
  | ok (subtitle_data : SubtitlePayload)
  | err (e : FetchError)

/-- Lines 111-146: the `except` chain of the subtitle fetch. -/
def fetchErrorResult : FetchError → TranscriptResult
  | .timeout =>
    .failure "Connection timed out while fetching subtitles. Please try again."
  | .connectionError =>
    .failure "Network connection failed. Please check your internet connection."
  | .httpError code =>
    if code = 429 then
      .failure "Rate limited by YouTube. Please wait a few minutes and try again."
    else if code = 403 then
      .failure "Access denied. Video may be age-restricted or geo-blocked."
    else
      .failure ("HTTP error " ++ toString code ++ " while fetching subtitles.")
  | .requestError msg => .failure ("Failed to fetch subtitles: " ++ msg)
  | .jsonDecodeError => .failure "Invalid subtitle format received."

/-- Lines 101-171: fetch the payload, decode it, and fail with
`'Could not parse transcript data.'` when no segment results. -/
def handleFetch : FetchOutcome → TranscriptResult
  | .err e => fetchErrorResult e
  | .ok subtitle_data =>
    let transcript := decodeEvents subtitle_data
    if transcript = [] then .failure "Could not parse transcript data."
    else .success transcript "Transcript retrieved successfully!"

/-! ## Track selection and the full `get_transcript` (lines 51-184) -/

/-- One entry of a subtitle track (dict with `ext` and `url` keys). -/
structure SubEntry where
  ext : Option String
  url : Option String
deriving DecidableEq

/-- The metadata relevant to `get_transcript`: `info['subtitles']['en']` and
`info['automatic_captions']['en']`, each `none` when the key chain is
missing. -/
structure VideoInfo where
  subtitlesEn : Option (List SubEntry)
  automaticCaptionsEn : Option (List SubEntry)

/-- Lines 76-80: `subtitles = info['subtitles']['en']` if present, `elif`
the automatic captions. -/
def selectSubtitles (i : VideoInfo) : Option (List SubEntry) :=
  match i.subtitlesEn with
  | some subs => some subs
  | none => i.automaticCaptionsEn

/-- Lines 89-93: the `url` of the first entry whose `ext` is `'json3'`
(`none` when there is no such entry, or when that entry has no `url`). -/
def firstJson3Url : List SubEntry → Option String
  | [] => none
  | sub :: rest => if sub.ext = some "json3" then sub.url else firstJson3Url rest

/-- Outcome of `ydl.extract_info`: a metadata dict or a raised exception
carrying `str(e)`. -/
inductive ExtractOutcome where
  | info (i : VideoInfo)
  | raised (msg : String)

/-- Python `in` on strings (substring test). -/
def strContains (s pat : String) : Bool :=
  decide (pat.data <:+: s.data)

/-- `get_transcript`, as a function of the metadata outcome and of the network
(the fetch outcome for each subtitle URL). -/
def get_transcript (extracted : ExtractOutcome) (fetch : String → FetchOutcome) :
    TranscriptResult :=
  match extracted with
  | .raised msg =>
    if strContains msg "Private video" || strContains msg "This video is unavailable" then
      .failure "Video is unavailable. It may be private, deleted, or restricted."
    else
      .failure ("Error: " ++ msg)
  | .info i =>
    match selectSubtitles i with
    | none =>
      .failure "No English transcript or captions available for this video."
    | some subtitles =>
      if subtitles = [] then
        .failure "No English transcript or captions available for this video."
      else
        match firstJson3Url subtitles with
        | none =>
          .failure "JSON subtitle format not available. This video may only have VTT/SRT captions."
        | some subtitle_url =>
          if subtitle_url = "" then
            .failure "JSON subtitle format not available. This video may only have VTT/SRT captions."
          else
            handleFetch (fetch subtitle_url)

/-! ## Formatter (`format_transcript`, lines 187-202) -/

/-- Python `int()` on a float value: truncation toward zero. -/
def pyInt (q : ℚ) : ℤ :=
  if q < 0 then ⌈q⌉ else ⌊q⌋

/-- Python float `//`: floor division, returning a (here integral) float. -/
def pyFloorDiv (a b : ℚ) : ℚ :=
  (⌊a / b⌋ : ℚ)

/-- Python float `%`: `a - b * (a // b)`. -/
def pyMod (a b : ℚ) : ℚ :=
  a - b * (⌊a / b⌋ : ℚ)

/-- The value of `f"{n:02d}"`. -/
def pad2 (n : ℤ) : String :=
  let s := toString n
  if s.length < 2 then "0" ++ s else s

/-- One line of the timestamped format:
`f"[{int(start // 60):02d}:{int(start % 60):02d}] {text}"`. -/
def tsLine (entry : TranscriptSegment) : String :=
  "[" ++ pad2 (pyInt (pyFloorDiv entry.start 60)) ++ ":"
    ++ pad2 (pyInt (pyMod entry.start 60)) ++ "]" ++ " " ++ entry.text

/-- `format_transcript`: timestamped mode accumulates lines in a loop and
joins with newline; plain mode joins the texts with a space. -/
def format_transcript (transcript_data : List TranscriptSegment)
    (include_timestamps : Bool) : String :=
  if include_timestamps then
    String.intercalate "\n"
      (transcript_data.foldl (fun formatted entry => formatted ++ [tsLine entry]) [])
  else
    String.intercalate " " (transcript_data.map fun entry => entry.text)

/-! ## Retry session (`create_retry_session`, lines 12-25)

`urllib3.util.retry.Retry` counts *retries*: with `total=r` the initial
request plus up to `r` retries may be issued, and a response whose status is
in the forcelist is retried only for methods in `allowed_methods`.  The
network is modelled as the list of statuses successive attempts would see. -/

structure RetryConfig where
  total : Nat
  backoff_factor : ℚ
  status_forcelist : List Nat
  allowed_methods : List String
deriving DecidableEq

/-- `create_retry_session(retries, backoff_factor, status_forcelist)` with
`allowed_methods=["GET"]` fixed by the source. -/
def create_retry_session (retries : Nat) (backoff_factor : ℚ)
    (status_forcelist : List Nat) : RetryConfig :=
  ⟨retries, backoff_factor, status_forcelist, ["GET"]⟩

/-- The call site `create_retry_session()` uses the defaults
`retries=3, backoff_factor=1, status_forcelist=(429, 500, 502, 503, 504)`. -/
def default_session : RetryConfig :=
  create_retry_session 3 1 [429, 500, 502, 503, 504]

/-- Result of a request through the retry adapter: a response (with the
number of attempts made) or retry exhaustion (`MaxRetryError`). -/
inductive RetryResult where
  | response (status : Nat) (attempts : Nat)
  | exhausted (attempts : Nat)
deriving DecidableEq

def attemptsOf : RetryResult → Nat
  | .response _ a => a
  | .exhausted a => a

/-- The retry loop: `remaining` counts retries still allowed; a forcelisted
status on an allowed method consumes one retry (or exhausts). -/
def retryLoop (cfg : RetryConfig) (method : String) (remaining : Nat) :
    List Nat → Nat → RetryResult
  | [], attempts => .exhausted attempts
  | status :: rest, attempts =>
    if status ∈ cfg.status_forcelist ∧ method ∈ cfg.allowed_methods then
      match remaining with
      | 0 => .exhausted (attempts + 1)
      | r + 1 => retryLoop cfg method r rest (attempts + 1)
    else
      .response status (attempts + 1)
termination_by structural script => script

/-- One request through the session, given the statuses the server would
return on successive attempts. -/
def retrySend (cfg : RetryConfig) (method : String) (script : List Nat) :
    RetryResult :=
  retryLoop cfg method cfg.total script 0

/-! ## Extraction-response normalisation
(`extract_items_from_transcript`, lines 281-305) -/

/-- One entry of the model's parsed JSON array: an object (with optional
`name` and `notes` string fields), a bare string, or anything else. -/
inductive RespItem where
  | dict (name : Option String) (notes : Option String)
  | str (s : String)
  | other
deriving DecidableEq

/-- A normalised item (dict with `name` and `notes`). -/
structure ExtractedItem where
  name : String
  notes : String
deriving DecidableEq

/-- The per-item normalisation of the `for item in items` loop: `none` for
entries the loop skips. -/
def normalizeItem (video_url : String) : RespItem → Option ExtractedItem
  | .dict (some name) notes =>
    if notes.getD "" ≠ "" then
      some ⟨name, notes.getD "" ++ "\n\nSource: " ++ video_url⟩
    else
      some ⟨name, "Source: " ++ video_url⟩
  | .dict none _ => none
  | .str s => some ⟨s, "Source: " ++ video_url⟩
  | .other => none

/-- The body of the `for item in items` loop. -/
def normalizeStep (video_url : String) (result : List ExtractedItem)
    (item : RespItem) : List ExtractedItem :=
  match item with
  | RespItem.dict (some name) notes =>
    if notes.getD "" ≠ "" then
      result ++ [⟨name, notes.getD "" ++ "\n\nSource: " ++ video_url⟩]
    else
      result ++ [⟨name, "Source: " ++ video_url⟩]
  | RespItem.dict none _ => result
  | RespItem.str s => result ++ [⟨s, "Source: " ++ video_url⟩]
  | RespItem.other => result

/-- Lines 292-305: the normalisation loop accumulating into `result`. -/
def extract_items_normalize (items : List RespItem) (video_url : String) :
    List ExtractedItem :=
  items.foldl (normalizeStep video_url) []

/-- The backtick character. -/
def bt : Char := Char.ofNat 96

/-- Does the text start with a triple backtick? -/
def startsWithFence : List Char → Bool
  | a :: b :: c :: _ => a == bt && b == bt && c == bt
  | _ => false

/-- The characters before the next triple backtick (all of them if none). -/
def takeUntilFence : List Char → List Char
  | [] => []
  | c :: cs => if startsWithFence (c :: cs) then [] else c :: takeUntilFence cs

/-- Lines 284-288: if the response starts with a code fence, keep
`split("```")[1]`, drop a leading `json` tag, and strip. -/
def stripFence (response_text : String) : String :=
  if startsWithFence response_text.data then
    let inner := takeUntilFence (response_text.data.drop 3)
    let inner2 := if "json".data.isPrefixOf inner then inner.drop 4 else inner
    pyStrip (String.mk inner2)
  else response_text

/-! ## Specification-side descriptions (for refinement statements)

These definitions follow the wording of the specification rather than the
source, and are compared with the source-derived definitions in the claim
theorems. -/

/-- Per-event decoding as the specification describes it: for an event with a
`segs` sequence, concatenate the `utf8` fields, and when the concatenation is
non-blank after trimming emit one segment carrying the trimmed text, with
`start = tStartMs/1000` and `duration = dDurationMs/1000` (missing numeric
fields defaulting to 0); otherwise emit nothing. -/
def specEventSegments (event : SubEvent) : List TranscriptSegment :=
  match event.segs with
  | none => []
  | some sgs =>
    if pyStrip (concatUtf8 sgs) ≠ "" then
      [⟨pyStrip (concatUtf8 sgs),
        (event.tStartMs.getD 0 : ℚ) / 1000, (event.dDurationMs.getD 0 : ℚ) / 1000⟩]
    else []

/-- A timestamped line as the specification describes it: `[MM:SS] text` with
`MM = floor(start/60)` and `SS = floor(start mod 60)`, each zero-padded to two
digits, where `start mod 60 = start - 60 * floor(start/60)`. -/
def specTimestampLine (seg : TranscriptSegment) : String :=
  "[" ++ pad2 ⌊seg.start / 60⌋ ++ ":"
    ++ pad2 ⌊seg.start - 60 * (⌊seg.start / 60⌋ : ℚ)⌋ ++ "]" ++ " " ++ seg.text

/-! ## Helper lemmas -/

theorem string_data_append (a b : String) : (a ++ b).data = a.data ++ b.data := by
  cases a; cases b; rfl

theorem ne_of_head_ne {s t : String} (h : s.data.head? ≠ t.data.head?) : s ≠ t :=
  fun e => h (by rw [e])

theorem httpMsg_head (code : Nat) :
    ("HTTP error " ++ toString code ++ " while fetching subtitles.").data.head? = some 'H' := by
  rw [string_data_append, string_data_append]
  rfl

theorem failedMsg_head (msg : String) :
    ("Failed to fetch subtitles: " ++ msg).data.head? = some 'F' := by
  rw [string_data_append]
  rfl

theorem foldl_push_eq_map {α β : Type} (g : α → β) (l : List α) (acc : List β) :
    l.foldl (fun a x => a ++ [g x]) acc = acc ++ l.map g := by
  induction l generalizing acc with
  | nil => simp
  | cons x xs ih => simp [ih]

theorem foldl_decodeStep (events : List SubEvent) (acc : List TranscriptSegment) :
    events.foldl decodeStep acc = acc ++ events.flatMap specEventSegments := by
  induction events generalizing acc with
  | nil => simp
  | cons e es ih =>
    rw [List.foldl_cons, ih, List.flatMap_cons]
    cases hsg : e.segs with
    | none => simp [decodeStep, specEventSegments, hsg]
    | some sgs =>
      by_cases ht : pyStrip (concatUtf8 sgs) ≠ ""
      · simp [decodeStep, specEventSegments, hsg, ht, eventStart, eventDuration]
      · simp [decodeStep, specEventSegments, hsg, ht]

theorem decodeEvents_eq (p : SubtitlePayload) :
    decodeEvents p = (p.events.getD []).flatMap specEventSegments := by
  cases hp : p.events with
  | none => simp [decodeEvents, hp]
  | some evs => simp [decodeEvents, hp, decodeLoop, foldl_decodeStep]

theorem foldl_normalizeStep (video_url : String) (items : List RespItem)
    (acc : List ExtractedItem) :
    items.foldl (normalizeStep video_url) acc
      = acc ++ items.filterMap (normalizeItem video_url) := by
  induction items generalizing acc with
  | nil => simp
  | cons item rest ih =>
    rw [List.foldl_cons, ih, List.filterMap_cons]
    cases item with
    | dict name notes =>
      cases name with
      | none => simp [normalizeStep, normalizeItem]
      | some nm =>
        by_cases hn : notes.getD "" ≠ ""
        · simp [normalizeStep, normalizeItem, hn]
        · simp [normalizeStep, normalizeItem, hn]
    | str s => simp [normalizeStep, normalizeItem]
    | other => simp [normalizeStep, normalizeItem]

theorem pyInt_intCast (n : ℤ) : pyInt (n : ℚ) = n := by
  unfold pyInt
  split_ifs with h
  · exact Int.ceil_intCast n
  · exact Int.floor_intCast n

theorem pyInt_pyFloorDiv (a b : ℚ) : pyInt (pyFloorDiv a b) = ⌊a / b⌋ :=
  pyInt_intCast _

theorem pyMod_nonneg (s : ℚ) : 0 ≤ pyMod s 60 := by
  unfold pyMod
  have h : ((⌊s / 60⌋ : ℚ)) ≤ s / 60 := Int.floor_le (s / 60)
  have h2 : (60 : ℚ) * ((⌊s / 60⌋ : ℚ)) ≤ 60 * (s / 60) :=
    mul_le_mul_of_nonneg_left h (by norm_num)
  have h3 : (60 : ℚ) * (s / 60) = s := by field_simp
  linarith

theorem pyInt_pyMod (s : ℚ) : pyInt (pyMod s 60) = ⌊pyMod s 60⌋ := by
  unfold pyInt
  rw [if_neg (not_lt.mpr (pyMod_nonneg s))]

theorem tsLine_eq_spec (seg : TranscriptSegment) : tsLine seg = specTimestampLine seg := by
  unfold tsLine specTimestampLine
  rw [pyInt_pyFloorDiv, pyInt_pyMod]
  rfl

theorem handleFetch_ok (p : SubtitlePayload) :
    handleFetch (.ok p) =
      if decodeEvents p = [] then
        TranscriptResult.failure "Could not parse transcript data."
      else
        TranscriptResult.success (decodeEvents p) "Transcript retrieved successfully!" :=
  rfl

theorem handleFetch_err (e : FetchError) :
    handleFetch (.err e) = fetchErrorResult e := rfl

theorem fetchErrorResult_httpError (code : Nat) :
    fetchErrorResult (.httpError code) =
      if code = 429 then
        .failure "Rate limited by YouTube. Please wait a few minutes and try again."
      else if code = 403 then
        .failure "Access denied. Video may be age-restricted or geo-blocked."
      else
        .failure ("HTTP error " ++ toString code ++ " while fetching subtitles.") :=
  rfl

theorem handleFetch_success {o : FetchOutcome} {segs : List TranscriptSegment}
    {msg : String} (h : handleFetch o = .success segs msg) : segs ≠ [] := by
  cases o with
  | ok p =>
    rw [handleFetch_ok] at h
    by_cases hp : decodeEvents p = []
    · rw [if_pos hp] at h
      exact absurd h (by simp)
    · rw [if_neg hp] at h
      injection h with h1 h2
      rw [← h1]
      exact hp
  | err e =>
    cases e with
    | timeout => exact absurd h (by simp [handleFetch_err, fetchErrorResult])
    | connectionError => exact absurd h (by simp [handleFetch_err, fetchErrorResult])
    | jsonDecodeError => exact absurd h (by simp [handleFetch_err, fetchErrorResult])
    | requestError msg2 => exact absurd h (by simp [handleFetch_err, fetchErrorResult])
    | httpError code =>
      rw [handleFetch_err, fetchErrorResult_httpError] at h
      split_ifs at h

theorem handleFetch_ne_noCaptions (o : FetchOutcome) :
    handleFetch o ≠
      .failure "No English transcript or captions available for this video." := by
  cases o with
  | ok p =>
    rw [handleFetch_ok]
    by_cases hp : decodeEvents p = []
    · rw [if_pos hp]; decide
    · rw [if_neg hp]
      exact fun h => TranscriptResult.noConfusion h
  | err e =>
    cases e with
    | timeout => decide
    | connectionError => decide
    | jsonDecodeError => decide
    | requestError msg =>
      intro h
      rw [handleFetch_err] at h
      injection h with h2
      exact ne_of_head_ne (by rw [failedMsg_head]; decide) h2
    | httpError code =>
      intro h
      rw [handleFetch_err, fetchErrorResult_httpError] at h
      split_ifs at h
      · exact absurd h (by decide)
      · exact absurd h (by decide)
      · injection h with h2
        exact ne_of_head_ne (by rw [httpMsg_head]; decide) h2

theorem tryLit_valid {lit s cap : List Char} (h : tryLit lit s = some cap) :
    ∀ c ∈ cap, validChar c := by
  unfold tryLit at h
  by_cases h1 : lit.isPrefixOf s
  · rw [if_pos h1] at h
    by_cases h2 : (s.drop lit.length).takeWhile validChar = []
    · rw [if_pos h2] at h; cases h
    · rw [if_neg h2] at h
      injection h with h3
      intro c hc
      rw [← h3] at hc
      exact List.mem_takeWhile_imp hc
  · rw [if_neg h1] at h; cases h

theorem searchPattern1_valid :
    ∀ (s cap : List Char), searchPattern1 s = some cap → ∀ c ∈ cap, validChar c := by
  intro s
  induction s with
  | nil => intro cap h; cases h
  | cons x xs ih =>
    intro cap h
    simp only [searchPattern1] at h
    cases hw : tryLit watchLit (x :: xs) with
    | some capw =>
      simp only [hw] at h
      injection h with h3
      rw [← h3]
      exact tryLit_valid hw
    | none =>
      simp only [hw] at h
      cases hs : tryLit shortLit (x :: xs) with
      | some caps =>
        simp only [hs] at h
        injection h with h3
        rw [← h3]
        exact tryLit_valid hs
      | none =>
        simp only [hs] at h
        cases he : tryLit embedLit (x :: xs) with
        | some cape =>
          simp only [he] at h
          injection h with h3
          rw [← h3]
          exact tryLit_valid he
        | none =>
          simp only [he] at h
          exact ih cap h

theorem capAt_valid :
    ∀ (s cap : List Char), capAt s = some cap → ∀ c ∈ cap, validChar c := by
  intro s cap h
  cases s with
  | nil => cases h
  | cons a t =>
    cases t with
    | nil => cases h
    | cons b rest =>
      simp only [capAt] at h
      by_cases h1 : a = 'v' ∧ b = '='
      · rw [if_pos h1] at h
        by_cases h2 : rest.takeWhile validChar = []
        · rw [if_pos h2] at h; cases h
        · rw [if_neg h2] at h
          injection h with h3
          intro c hc
          rw [← h3] at hc
          exact List.mem_takeWhile_imp hc
      · rw [if_neg h1] at h; cases h

theorem lastVMatch_valid :
    ∀ (s cap : List Char), lastVMatch s = some cap → ∀ c ∈ cap, validChar c := by
  intro s
  induction s with
  | nil => intro cap h; cases h
  | cons x xs ih =>
    intro cap h
    simp only [lastVMatch] at h
    cases hin : (if x = '\n' then none else lastVMatch xs) with
    | some c2 =>
      simp only [hin] at h
      injection h with h3
      rw [← h3]
      by_cases hx : x = '\n'
      · rw [if_pos hx] at hin; cases hin
      · rw [if_neg hx] at hin
        exact ih c2 hin
    | none =>
      simp only [hin] at h
      exact capAt_valid _ _ h

theorem searchPattern2_valid :
    ∀ (s cap : List Char), searchPattern2 s = some cap → ∀ c ∈ cap, validChar c := by
  intro s
  induction s with
  | nil => intro cap h; cases h
  | cons x xs ih =>
    intro cap h
    simp only [searchPattern2] at h
    cases hg :
        (if watchAnyLit.isPrefixOf (x :: xs) then
          lastVMatch ((x :: xs).drop watchAnyLit.length)
        else none) with
    | some c2 =>
      simp only [hg] at h
      injection h with h3
      rw [← h3]
      by_cases hp : watchAnyLit.isPrefixOf (x :: xs)
      · rw [if_pos hp] at hg
        exact lastVMatch_valid _ _ hg
      · rw [if_neg hp] at hg; cases hg
    | none =>
      simp only [hg] at h
      exact ih cap h

theorem get_transcript_info (i : VideoInfo) (fetch : String → FetchOutcome) :
    get_transcript (.info i) fetch =
      match selectSubtitles i with
      | none =>
        .failure "No English transcript or captions available for this video."
      | some subtitles =>
        if subtitles = [] then
          .failure "No English transcript or captions available for this video."
        else
          match firstJson3Url subtitles with
          | none =>
            .failure "JSON subtitle format not available. This video may only have VTT/SRT captions."
          | some subtitle_url =>
            if subtitle_url = "" then
              .failure "JSON subtitle format not available. This video may only have VTT/SRT captions."
            else
              handleFetch (fetch subtitle_url) := rfl

theorem fetchErrorResult_not_success (e : FetchError) (segs : List TranscriptSegment)
    (msg : String) : fetchErrorResult e ≠ .success segs msg := by
  cases e with
  | httpError code =>
    rw [fetchErrorResult_httpError]
    split_ifs <;> simp
  | timeout => simp [fetchErrorResult]
  | connectionError => simp [fetchErrorResult]
  | requestError m => simp [fetchErrorResult]
  | jsonDecodeError => simp [fetchErrorResult]

theorem retryLoop_nil (cfg : RetryConfig) (method : String) (r attempts : Nat) :
    retryLoop cfg method r [] attempts = .exhausted attempts := rfl

theorem retryLoop_cons (cfg : RetryConfig) (method : String) (r status attempts : Nat)
    (rest : List Nat) :
    retryLoop cfg method r (status :: rest) attempts =
      if status ∈ cfg.status_forcelist ∧ method ∈ cfg.allowed_methods then
        match r with
        | 0 => .exhausted (attempts + 1)
        | r2 + 1 => retryLoop cfg method r2 rest (attempts + 1)
      else .response status (attempts + 1) := rfl

theorem retryLoop_attempts (cfg : RetryConfig) (method : String) :
    ∀ (script : List Nat) (r attempts : Nat),
      attemptsOf (retryLoop cfg method r script attempts) ≤ attempts + r + 1 := by
  intro script
  induction script with
  | nil =>
    intro r attempts
    rw [retryLoop_nil]
    show attempts ≤ attempts + r + 1
    omega
  | cons status rest ih =>
    intro r attempts
    rw [retryLoop_cons]
    by_cases hc : status ∈ cfg.status_forcelist ∧ method ∈ cfg.allowed_methods
    · rw [if_pos hc]
      cases r with
      | zero =>
        show attempts + 1 ≤ attempts + 0 + 1
        omega
      | succ r2 =>
        have h2 := ih r2 (attempts + 1)
        calc attemptsOf (retryLoop cfg method r2 rest (attempts + 1))
            ≤ attempts + 1 + r2 + 1 := h2
          _ ≤ attempts + (r2 + 1) + 1 := by omega
    · rw [if_neg hc]
      show attempts + 1 ≤ attempts + r + 1
      omega

theorem sourceLine_suffix_append (a u : String) :
    ("Source: " ++ u).data <:+ (a ++ "\n\nSource: " ++ u).data := by
  refine ⟨a.data ++ ['\n', '\n'], ?_⟩
  rw [string_data_append, string_data_append, string_data_append]
  rw [show "\n\nSource: ".data = '\n' :: '\n' :: "Source: ".data from rfl]
  simp [List.append_assoc]

/-! ## Concrete payloads used in claim instances -/

/-- A payload with one event carrying `tStartMs: 1500`, `dDurationMs: 2000`
and segs texts `"Hello "`, `"world"`. -/
def pHello : SubtitlePayload :=
  ⟨some [⟨some 1500, some 2000, some [⟨some "Hello "⟩, ⟨some "world"⟩]⟩]⟩

/-- As `pHello` but with a trailing space on the second seg text. -/
def pHelloTrail : SubtitlePayload :=
  ⟨some [⟨some 1500, some 2000, some [⟨some "Hello "⟩, ⟨some "world "⟩]⟩]⟩

/-- A payload with one plain event. -/
def pW : SubtitlePayload :=
  ⟨some [⟨some 1500, some 2000, some [⟨some "hi"⟩]⟩]⟩

/-- A payload whose event declares a negative `tStartMs`. -/
def pNeg : SubtitlePayload :=
  ⟨some [⟨some (-1000), none, some [⟨some "hi"⟩]⟩]⟩

/-! ## Claim theorems -/

/-- C1: a transcript result is `Success` only with a non-empty segment
sequence: whenever decoding yields zero segments the fetch-and-decode stage
returns the `EmptyTranscript` failure (`'Could not parse transcript data.'`),
and `get_transcript` never returns `Success` with an empty segment list. -/
theorem c1_success_nonempty :
    (∀ p : SubtitlePayload, decodeEvents p = [] →
      handleFetch (.ok p) = .failure "Could not parse transcript data.") ∧
    (∀ (eo : ExtractOutcome) (fetch : String → FetchOutcome)
        (segs : List TranscriptSegment) (msg : String),
      get_transcript eo fetch = .success segs msg → segs ≠ []) := by
  constructor
  · intro p hp
    rw [handleFetch_ok, if_pos hp]
  · intro eo fetch segs msg h
    cases eo with
    | raised m =>
      simp only [get_transcript] at h
      split_ifs at h
    | info i =>
      rw [get_transcript_info] at h
      cases hsel : selectSubtitles i with
      | none => simp only [hsel] at h; exact absurd h (by simp)
      | some subs =>
        simp only [hsel] at h
        by_cases hemp : subs = []
        · rw [if_pos hemp] at h; exact absurd h (by simp)
        · rw [if_neg hemp] at h
          cases hj : firstJson3Url subs with
          | none => simp only [hj] at h; exact absurd h (by simp)
          | some u =>
            simp only [hj] at h
            by_cases hu : u = ""
            · rw [if_pos hu] at h; exact absurd h (by simp)
            · rw [if_neg hu] at h
              exact handleFetch_success h

theorem c1_witness :
    handleFetch (.ok ⟨some []⟩) = .failure "Could not parse transcript data." ∧
    ([⟨"hi", ((1500 : ℤ) : ℚ) / 1000, ((2000 : ℤ) : ℚ) / 1000⟩] :
      List TranscriptSegment) ≠ [] :=
  ⟨c1_success_nonempty.1 ⟨some []⟩ rfl,
   c1_success_nonempty.2 (.info ⟨some [⟨some "json3", some "u"⟩], none⟩)
     (fun _ => .ok pW)
     [⟨"hi", ((1500 : ℤ) : ℚ) / 1000, ((2000 : ℤ) : ℚ) / 1000⟩]
     "Transcript retrieved successfully!" rfl⟩

/-- C2: the URL parser tries the two pattern families in order (first the
`watch?v=` / `youtu.be/` / `embed/` family, then the fallback `v=` scan after
`watch?`), returns the first matched identifier whose characters never include
an ampersand, newline, question mark or hash (truncation at those), returns
no identifier when neither matches, and the supported URL shapes yield the
expected identifiers. -/
theorem c2_url_matching :
    (∀ (url id : String), extract_video_id url = some id →
      ∀ c ∈ id.data, c ≠ '&' ∧ c ≠ '\n' ∧ c ≠ '?' ∧ c ≠ '#') ∧
    (∀ (url : String) (cap : List Char), searchPattern1 url.data = some cap →
      extract_video_id url = some (String.mk cap)) ∧
    (∀ url : String, searchPattern1 url.data = none →
      extract_video_id url = Option.map String.mk (searchPattern2 url.data)) ∧
    extract_video_id "https://www.youtube.com/watch?v=dQw4w9WgXcQ" = some "dQw4w9WgXcQ" ∧
    extract_video_id "https://youtu.be/dQw4w9WgXcQ" = some "dQw4w9WgXcQ" ∧
    extract_video_id "https://www.youtube.com/embed/dQw4w9WgXcQ" = some "dQw4w9WgXcQ" ∧
    extract_video_id "https://m.youtube.com/watch?t=42&v=abc123#frag" = some "abc123" ∧
    extract_video_id "https://example.com/page?q=youtube" = none := by
  refine ⟨?_, ?_, ?_, by decide, by decide, by decide, by decide, by decide⟩
  · intro url id h c hc
    unfold extract_video_id at h
    cases h1 : searchPattern1 url.data with
    | some cap =>
      simp only [h1] at h
      injection h with h3
      rw [← h3] at hc
      exact of_decide_eq_true (searchPattern1_valid _ _ h1 c hc)
    | none =>
      simp only [h1] at h
      cases h2 : searchPattern2 url.data with
      | some cap =>
        simp only [h2] at h
        injection h with h3
        rw [← h3] at hc
        exact of_decide_eq_true (searchPattern2_valid _ _ h2 c hc)
      | none => simp only [h2] at h; exact absurd h (by simp)
  · intro url cap h
    simp only [extract_video_id, h]
  · intro url h
    simp only [extract_video_id, h]
    cases h2 : searchPattern2 url.data <;> simp [h2]

theorem c2_witness :
    'd' ≠ '&' ∧ 'd' ≠ '\n' ∧ 'd' ≠ '?' ∧ 'd' ≠ '#' :=
  c2_url_matching.1 "https://youtu.be/dQw4w9WgXcQ" "dQw4w9WgXcQ" (by decide) 'd' (by decide)

/-- C3 (amended): for each event with a `segs` sequence the decoder emits the
whitespace-trimmed concatenation of the `utf8` fields as one segment with
`start = tStartMs/1000` and `duration = dDurationMs/1000` (missing fields
defaulting), only when the concatenation is non-blank after trimming; events
without `segs` or with blank text are skipped; the claim's single-event
payload yields exactly `⟨"Hello world", 1.5, 2.0⟩`. -/
theorem c3_decoder :
    (∀ p : SubtitlePayload,
      decodeEvents p = (p.events.getD []).flatMap specEventSegments) ∧
    decodeEvents pHello = [⟨"Hello world", 3 / 2, 2⟩] := by
  constructor
  · exact decodeEvents_eq
  · have h : decodeEvents pHello =
        [⟨"Hello world", ((1500 : ℤ) : ℚ) / 1000, ((2000 : ℤ) : ℚ) / 1000⟩] := rfl
    rw [h]
    norm_num [TranscriptSegment.mk.injEq, List.cons.injEq]

/-- C3 counterexample: on an event whose concatenated text carries a trailing
space the emitted segment text is the trimmed concatenation, not the raw
concatenation `"Hello world "` the claim describes. -/
theorem c3_counterexample :
    decodeEvents pHelloTrail = [⟨"Hello world", 3 / 2, 2⟩] ∧
    decodeEvents pHelloTrail ≠ [⟨"Hello world ", 3 / 2, 2⟩] := by
  have h : decodeEvents pHelloTrail =
      [⟨"Hello world", ((1500 : ℤ) : ℚ) / 1000, ((2000 : ℤ) : ℚ) / 1000⟩] := rfl
  constructor
  · rw [h]
    norm_num [TranscriptSegment.mk.injEq, List.cons.injEq]
  · rw [h]
    intro h2
    injection h2 with h3 h4
    injection h3 with ht hs hd
    exact absurd ht (by decide)

/-- C4: plain mode joins the segment texts with single spaces in order;
timestamped mode emits one `[MM:SS] text` line per segment with
`MM = floor(start/60)` and `SS = floor(start mod 60)` zero-padded to two
digits, joined with newlines; no segment is reordered, merged or dropped
(each mode equals the per-segment map of its line shape); `start = 65` gives
the prefix `[01:05]`. -/
theorem c4_formatter :
    (∀ l : List TranscriptSegment,
      format_transcript l false = String.intercalate " " (l.map fun e => e.text)) ∧
    (∀ l : List TranscriptSegment,
      format_transcript l true = String.intercalate "\n" (l.map specTimestampLine)) ∧
    format_transcript [⟨"a", 0, 0⟩, ⟨"b", 0, 0⟩] false = "a b" ∧
    format_transcript [⟨"hi", 65, 1⟩] true = "[01:05] hi" := by
  have hmap : ∀ l : List TranscriptSegment,
      format_transcript l true = String.intercalate "\n" (l.map specTimestampLine) := by
    intro l
    unfold format_transcript
    rw [if_pos rfl, foldl_push_eq_map, List.nil_append]
    rw [show tsLine = specTimestampLine from funext tsLine_eq_spec]
  refine ⟨fun l => rfl, hmap, by decide, ?_⟩
  have h1 : pyInt (pyFloorDiv 65 60) = 1 := by
    rw [pyInt_pyFloorDiv]
    norm_num
  have h2 : pyInt (pyMod 65 60) = 5 := by
    rw [pyInt_pyMod]
    unfold pyMod
    rw [show ⌊(65 : ℚ) / 60⌋ = 1 from by norm_num]
    norm_num
  have hline : tsLine ⟨"hi", 65, 1⟩ = "[01:05] hi" := by
    show "[" ++ pad2 (pyInt (pyFloorDiv 65 60)) ++ ":"
        ++ pad2 (pyInt (pyMod 65 60)) ++ "]" ++ " " ++ "hi" = "[01:05] hi"
    rw [h1, h2]
    decide
  unfold format_transcript
  rw [if_pos rfl, foldl_push_eq_map, List.nil_append]
  rw [show List.map tsLine [⟨"hi", 65, 1⟩] = [tsLine ⟨"hi", 65, 1⟩] from rfl, hline]
  decide

/-- C5 (amended): the resolver prefers the manual English track whenever its
key is present (the automatic track is then never consulted, even when the
manual entry list is empty, in which case the result is `NoCaptions`); it
falls back to the automatic English track exactly when the manual key is
absent; it fails with `NoCaptions` when no track is selected or the selected
entry list is empty; and once a non-empty track is selected it fails with the
distinct `UnsupportedFormat` error — never `NoCaptions` — when that track has
no `json3` entry. -/
theorem c5_track_selection :
    (∀ (l : List SubEntry) (auto : Option (List SubEntry)) (fetch : String → FetchOutcome),
      get_transcript (.info ⟨some l, auto⟩) fetch
        = get_transcript (.info ⟨some l, none⟩) fetch) ∧
    (∀ (auto : Option (List SubEntry)) (fetch : String → FetchOutcome),
      get_transcript (.info ⟨none, auto⟩) fetch
        = get_transcript (.info ⟨auto, none⟩) fetch) ∧
    (∀ fetch : String → FetchOutcome,
      get_transcript (.info ⟨none, none⟩) fetch =
        .failure "No English transcript or captions available for this video.") ∧
    (∀ (auto : Option (List SubEntry)) (fetch : String → FetchOutcome),
      get_transcript (.info ⟨some [], auto⟩) fetch =
        .failure "No English transcript or captions available for this video.") ∧
    (∀ (l : List SubEntry) (fetch : String → FetchOutcome), l ≠ [] →
      firstJson3Url l = none →
      get_transcript (.info ⟨some l, none⟩) fetch =
        .failure "JSON subtitle format not available. This video may only have VTT/SRT captions.") ∧
    (∀ (l : List SubEntry) (fetch : String → FetchOutcome), l ≠ [] →
      get_transcript (.info ⟨some l, none⟩) fetch ≠
        .failure "No English transcript or captions available for this video.") := by
  refine ⟨fun l auto fetch => rfl, ?_, fun fetch => rfl, fun auto fetch => rfl, ?_, ?_⟩
  · intro auto fetch
    cases auto <;> rfl
  · intro l fetch hne hj
    rw [get_transcript_info]
    simp only [selectSubtitles]
    rw [if_neg hne, hj]
  · intro l fetch hne h
    rw [get_transcript_info] at h
    simp only [selectSubtitles] at h
    rw [if_neg hne] at h
    cases hj : firstJson3Url l with
    | none =>
      simp only [hj] at h
      exact absurd h (by decide)
    | some u =>
      simp only [hj] at h
      by_cases hu : u = ""
      · rw [if_pos hu] at h
        exact absurd h (by decide)
      · rw [if_neg hu] at h
        exact handleFetch_ne_noCaptions _ h

theorem c5_witness :
    get_transcript (.info ⟨some [⟨some "vtt", some "u"⟩], none⟩) (fun _ => .err .timeout) =
      .failure "JSON subtitle format not available. This video may only have VTT/SRT captions." :=
  c5_track_selection.2.2.2.2.1 [⟨some "vtt", some "u"⟩] (fun _ => .err .timeout)
    (by decide) (by decide)

/-- C5 counterexample: when the manual English track is present with an empty
entry list (which has no `json3` entry) and an automatic track with a `json3`
entry exists, `get_transcript` returns the `NoCaptions` message — the claim
predicts either the automatic fallback or `UnsupportedFormat`, and in
particular never `NoCaptions` for a selected track without `json3`. -/
theorem c5_counterexample :
    get_transcript (.info ⟨some [], some [⟨some "json3", some "u"⟩]⟩)
        (fun _ => .err .timeout) =
      .failure "No English transcript or captions available for this video." ∧
    "No English transcript or captions available for this video." ≠
      "JSON subtitle format not available. This video may only have VTT/SRT captions." :=
  ⟨rfl, by decide⟩

/-- C6: the fetch-failure classification: timeout maps to the `Timeout`
message, connection failure to `ConnectionFailed`, HTTP 429 to `RateLimited`,
HTTP 403 to `AccessDenied`, any other 4xx/5xx status to `HttpError` carrying
its code, and an invalid-JSON body to `MalformedPayload`; the messages are
pairwise distinct and none of these paths returns `Success`. -/
theorem c6_error_classification :
    handleFetch (.err .timeout) =
      .failure "Connection timed out while fetching subtitles. Please try again." ∧
    handleFetch (.err .connectionError) =
      .failure "Network connection failed. Please check your internet connection." ∧
    handleFetch (.err (.httpError 429)) =
      .failure "Rate limited by YouTube. Please wait a few minutes and try again." ∧
    handleFetch (.err (.httpError 403)) =
      .failure "Access denied. Video may be age-restricted or geo-blocked." ∧
    (∀ code : Nat, 400 ≤ code → code < 600 → code ≠ 429 → code ≠ 403 →
      handleFetch (.err (.httpError code)) =
        .failure ("HTTP error " ++ toString code ++ " while fetching subtitles.")) ∧
    handleFetch (.err .jsonDecodeError) = .failure "Invalid subtitle format received." ∧
    List.Pairwise (fun a b => a ≠ b)
      ["Connection timed out while fetching subtitles. Please try again.",
       "Network connection failed. Please check your internet connection.",
       "Rate limited by YouTube. Please wait a few minutes and try again.",
       "Access denied. Video may be age-restricted or geo-blocked.",
       "Invalid subtitle format received."] ∧
    (∀ code : Nat,
      ("HTTP error " ++ toString code ++ " while fetching subtitles.") ∉
        ["Connection timed out while fetching subtitles. Please try again.",
         "Network connection failed. Please check your internet connection.",
         "Rate limited by YouTube. Please wait a few minutes and try again.",
         "Access denied. Video may be age-restricted or geo-blocked.",
         "Invalid subtitle format received."]) ∧
    (∀ (e : FetchError) (segs : List TranscriptSegment) (msg : String),
      handleFetch (.err e) ≠ .success segs msg) := by
  refine ⟨rfl, rfl, rfl, rfl, ?_, rfl, by decide, ?_, ?_⟩
  · intro code h4 h6 h429 h403
    rw [handleFetch_err, fetchErrorResult_httpError, if_neg h429, if_neg h403]
  · intro code hmem
    simp only [List.mem_cons, List.not_mem_nil, or_false] at hmem
    rcases hmem with h | h | h | h | h <;>
      exact ne_of_head_ne (by rw [httpMsg_head]; decide) h
  · intro e segs msg
    rw [handleFetch_err]
    exact fetchErrorResult_not_success e segs msg

theorem c6_witness :
    handleFetch (.err (.httpError 500)) =
      .failure ("HTTP error " ++ toString 500 ++ " while fetching subtitles.") :=
  c6_error_classification.2.2.2.2.1 500 (by decide) (by decide) (by decide) (by decide)

/-- C7 (amended): every segment the decoder produces has `start ≥ 0` and
`duration ≥ 0`, provided every event's declared `tStartMs` and `dDurationMs`
(defaulting to 0 when missing) are non-negative. -/
theorem c7_nonneg (p : SubtitlePayload)
    (h : ∀ e ∈ p.events.getD [], 0 ≤ e.tStartMs.getD 0 ∧ 0 ≤ e.dDurationMs.getD 0) :
    ∀ seg ∈ decodeEvents p, 0 ≤ seg.start ∧ 0 ≤ seg.duration := by
  intro seg hseg
  rw [decodeEvents_eq] at hseg
  rcases List.mem_flatMap.mp hseg with ⟨e, he, hseg2⟩
  obtain ⟨h1, h2⟩ := h e he
  cases hsg : e.segs with
  | none =>
    simp only [specEventSegments, hsg] at hseg2
    exact absurd hseg2 (by simp)
  | some sgs =>
    simp only [specEventSegments, hsg] at hseg2
    by_cases ht : pyStrip (concatUtf8 sgs) ≠ ""
    · rw [if_pos ht] at hseg2
      rw [List.mem_singleton] at hseg2
      subst hseg2
      constructor
      · show (0 : ℚ) ≤ (e.tStartMs.getD 0 : ℚ) / 1000
        apply div_nonneg _ (by norm_num)
        exact_mod_cast h1
      · show (0 : ℚ) ≤ (e.dDurationMs.getD 0 : ℚ) / 1000
        apply div_nonneg _ (by norm_num)
        exact_mod_cast h2
    · rw [if_neg ht] at hseg2
      exact absurd hseg2 (by simp)

theorem c7_witness :
    0 ≤ (TranscriptSegment.mk "hi" (((1500 : ℤ) : ℚ) / 1000)
          (((2000 : ℤ) : ℚ) / 1000)).start ∧
    0 ≤ (TranscriptSegment.mk "hi" (((1500 : ℤ) : ℚ) / 1000)
          (((2000 : ℤ) : ℚ) / 1000)).duration :=
  c7_nonneg pW (by decide) _ (List.mem_singleton.mpr rfl)

/-- C7 counterexample: a payload whose event declares `tStartMs = -1000` is
accepted by the decoder and yields a segment with `start = -1 < 0`. -/
theorem c7_counterexample :
    decodeEvents pNeg = [⟨"hi", -1, 0⟩] ∧
    (TranscriptSegment.mk "hi" (-1) 0).start < 0 := by
  constructor
  · have h : decodeEvents pNeg =
        [⟨"hi", ((-1000 : ℤ) : ℚ) / 1000, ((0 : ℤ) : ℚ) / 1000⟩] := rfl
    rw [h]
    norm_num [TranscriptSegment.mk.injEq, List.cons.injEq]
  · show (-1 : ℚ) < 0
    norm_num

/-- C8: the extraction client strips an enclosing code fence and leading
`json` tag before parsing (the claim's fenced example reduces to the plain
JSON array text), normalises an object entry with a `name` field and a bare
string entry to `(name, notes)`, and every produced item's notes ends with
the system-appended `Source: <video URL>` line. -/
theorem c8_response_normalization :
    stripFence "```json\n[\x7b\"name\":\"X\"\x7d]\n```" = "[\x7b\"name\":\"X\"\x7d]" ∧
    (∀ video_url : String,
      extract_items_normalize [.dict (some "X") none] video_url =
        [⟨"X", "Source: " ++ video_url⟩]) ∧
    (∀ video_url s : String,
      extract_items_normalize [.str s] video_url = [⟨s, "Source: " ++ video_url⟩]) ∧
    (∀ (video_url : String) (items : List RespItem) (item : ExtractedItem),
      item ∈ extract_items_normalize items video_url →
      ("Source: " ++ video_url).data <:+ item.notes.data) := by
  refine ⟨by decide, fun u => rfl, fun u s => rfl, ?_⟩
  intro u items item hmem
  unfold extract_items_normalize at hmem
  rw [foldl_normalizeStep, List.nil_append] at hmem
  rcases List.mem_filterMap.mp hmem with ⟨it0, hit0, hn⟩
  cases it0 with
  | dict name notes =>
    cases name with
    | none => simp [normalizeItem] at hn
    | some nm =>
      by_cases hns : notes.getD "" ≠ ""
      · simp only [normalizeItem] at hn
        rw [if_pos hns] at hn
        injection hn with h3
        rw [← h3]
        exact sourceLine_suffix_append _ _
      · simp only [normalizeItem] at hn
        rw [if_neg hns] at hn
        injection hn with h3
        rw [← h3]
  | str s =>
    simp only [normalizeItem] at hn
    injection hn with h3
    rw [← h3]
  | other => simp [normalizeItem] at hn

theorem c8_witness :
    ("Source: " ++ "u").data <:+ (ExtractedItem.mk "a" "Source: u").notes.data :=
  c8_response_normalization.2.2.2 "u" [.str "a"] ⟨"a", "Source: u"⟩ (by decide)

/-- C9 (amended): the subtitle fetch uses the bounded retry policy created by
`create_retry_session` with 3 *retries* (hence at most 4 attempts), backoff
factor 1, and GET-only retries on statuses 429/500/502/503/504; two 503
responses followed by a 200 succeed on the third attempt, while a 403
response is returned on the first attempt and classified as `AccessDenied`
with no additional attempt. -/
theorem c9_retry_policy :
    default_session.total = 3 ∧
    default_session.backoff_factor = 1 ∧
    default_session.status_forcelist = [429, 500, 502, 503, 504] ∧
    default_session.allowed_methods = ["GET"] ∧
    retrySend default_session "GET" [503, 503, 200] = .response 200 3 ∧
    retrySend default_session "GET" [403] = .response 403 1 ∧
    fetchErrorResult (.httpError 403) =
      .failure "Access denied. Video may be age-restricted or geo-blocked." ∧
    (∀ script : List Nat, attemptsOf (retrySend default_session "GET" script) ≤ 4) ∧
    (∀ (status : Nat) (rest : List Nat),
      retrySend default_session "POST" (status :: rest) = .response status 1) := by
  refine ⟨rfl, rfl, rfl, rfl, by decide, by decide, by decide, ?_, ?_⟩
  · intro script
    have h := retryLoop_attempts default_session "GET" script 3 0
    exact h
  · intro status rest
    have hc : ¬(status ∈ default_session.status_forcelist ∧
        "POST" ∈ default_session.allowed_methods) := by
      intro hcon
      exact absurd hcon.2 (by decide)
    show retryLoop default_session "POST" 3 (status :: rest) 0 = .response status 1
    rw [retryLoop_cons, if_neg hc]

/-- C9 counterexample: the session retries three times, so three 503 responses
followed by a 200 still succeed — on the fourth attempt, contradicting the
claimed bound of 3 attempts. -/
theorem c9_counterexample :
    retrySend default_session "GET" [503, 503, 503, 200] = .response 200 4 ∧
    ¬(attemptsOf (retrySend default_session "GET" [503, 503, 503, 200]) ≤ 3) := by
  decide

/-- C10: the normalisation loop drops object entries without a `name` key and
entries that are neither objects nor strings (it equals a per-item
`filterMap`, so survivors keep their order), hence the output can be shorter
than the parsed array. -/
theorem c10_dropped_entries :
    (∀ (items : List RespItem) (video_url : String),
      extract_items_normalize items video_url
        = items.filterMap (normalizeItem video_url)) ∧
    (∀ (items : List RespItem) (video_url : String),
      (extract_items_normalize items video_url).length ≤ items.length) ∧
    extract_items_normalize
        [.dict none (some "n"), .other, .str "a", .dict (some "B") none] "u" =
      [⟨"a", "Source: u"⟩, ⟨"B", "Source: u"⟩] := by
  refine ⟨?_, ?_, by decide⟩
  · intro items u
    unfold extract_items_normalize
    rw [foldl_normalizeStep, List.nil_append]
  · intro items u
    unfold extract_items_normalize
    rw [foldl_normalizeStep, List.nil_append]
    exact List.length_filterMap_le _ _

end YTScraper
